import Mathlib

/-!
Shallow embedding of `committelemetry/telemetry.py`: the commit review-system
classifier and its telemetry payload builder.  Pure string/record logic is
translated directly; the HTTP fetches and the external bug-number parser are
modelled as explicit function parameters (an environment), since the module
only consumes their results.
-/

namespace CommitTelemetry

/-- Bugzilla attachment type label for MozReview requests. -/
def ATTACHMENT_TYPE_MOZREVIEW : String := "text/x-review-board-request"

/-- Bugzilla attachment type label for GitHub requests. -/
def ATTACHMENT_TYPE_GITHUB : String := "text/x-github-request"

/-- Bugzilla attachment type label for Phabricator requests. -/
def ATTACHMENT_TYPE_PHABRICATOR : String := "text/x-phabricator-request"

/-- A BMO attachment record: the raw `is_patch` JSON flag and the
`content_type` string. -/
structure Attachment where
  is_patch : Nat
  content_type : String
  deriving DecidableEq

/-- `is_patch(attachment)`: the flag is 1 or the content type is one of the
three known patch-submission content types. -/
def is_patch (attachment : Attachment) : Bool :=
  attachment.is_patch == 1 ||
    (attachment.content_type == ATTACHMENT_TYPE_MOZREVIEW ||
     attachment.content_type == ATTACHMENT_TYPE_GITHUB ||
     attachment.content_type == ATTACHMENT_TYPE_PHABRICATOR)

/-- The characters of the backout pattern `^backed out ` (case-insensitive). -/
def BACKOUT_PATTERN : List Char := "backed out ".data

/-- `has_backout_markers`: `re.search` of the anchored, case-insensitive
pattern `^backed out ` succeeds, i.e. the lowercased text starts with
`backed out ` at position 0 (no MULTILINE flag, so `^` is the string start). -/
def has_backout_markers (revision_description : String) : Bool :=
  (revision_description.data.map Char.toLower).take BACKOUT_PATTERN.length ==
    BACKOUT_PATTERN

/-- Character class `[\w:/.]` of `PHABRICATOR_COMMIT_RE` (ASCII word chars). -/
def isPhabWordChar (c : Char) : Bool :=
  c.isAlphanum || c == '_' || c == ':' || c == '/' || c == '.'

/-- `[0-9]{3,}`: the list starts with at least three ASCII digits. -/
def threeDigits : List Char → Bool
  | a :: b :: c :: _ => a.isDigit && b.isDigit && c.isDigit
  | _ => false

/-- After the label, `([\w:/.]*)(D[0-9]{3,})`: a run of class characters
followed by `D` and at least three digits. -/
def phabTail : List Char → Bool
  | [] => false
  | c :: rest =>
      (c == 'D' && threeDigits rest) || (isPhabWordChar c && phabTail rest)

/-- The literal label of `PHABRICATOR_COMMIT_RE`. -/
def PHAB_LABEL : List Char := "Differential Revision: ".data

/-- `re.search` of `PHABRICATOR_COMMIT_RE`: at some position the label occurs,
followed by a `phabTail` match. -/
def phabSearch : List Char → Bool
  | [] => false
  | c :: rest =>
      ((c :: rest).take PHAB_LABEL.length == PHAB_LABEL &&
        phabTail ((c :: rest).drop PHAB_LABEL.length))
      || phabSearch rest

/-- `has_phab_markers(revision_description)`. -/
def has_phab_markers (revision_description : String) : Bool :=
  phabSearch revision_description.data

/-- The commit metadata JSON consumed by the classifier: the summary text
(`desc`) and the list of parent identifiers. -/
structure RevisionJson where
  desc : String
  parents : List String
  deriving DecidableEq

/-- `has_merge_markers(revision_json)`: more than one parent. -/
def has_merge_markers (revision_json : RevisionJson) : Bool :=
  decide (1 < revision_json.parents.length)

/-- `has_mozreview_markers(attachments)`: some patch attachment has the
MozReview content type. -/
def has_mozreview_markers (attachments : List Attachment) : Bool :=
  (attachments.filter is_patch).any
    (fun patch_attachment =>
      patch_attachment.content_type == ATTACHMENT_TYPE_MOZREVIEW)

/-- Splitting accumulator: Python `str.split(',')` keeps empty fields and
yields a single (possibly empty) field for separator-free input. -/
def splitOnCommaAux : List Char → List Char → List (List Char)
  | [], acc => [acc.reverse]
  | c :: rest, acc =>
      if c == ',' then acc.reverse :: splitOnCommaAux rest []
      else splitOnCommaAux rest (c :: acc)

/-- Python `s.split(',')` on the characters of `s`. -/
def splitOnComma (s : String) : List (List Char) :=
  splitOnCommaAux s.data []

/-- One field change inside a bug-history change group. -/
structure Change where
  field_name : String
  added : String
  deriving DecidableEq

/-- One bug-history change group. -/
structure ChangeGroup where
  changes : List Change
  deriving DecidableEq

/-- `has_bmo_patch_review_markers(attachments, bug_history)`: a raw patch
attachment exists (strict `is_patch == 1`), and some history change on the
`flagtypes.name` field added the `review+` flag (comma-split membership). -/
def has_bmo_patch_review_markers (attachments : List Attachment)
    (bug_history : List ChangeGroup) : Bool :=
  let patches := attachments.filter (fun a => a.is_patch == 1)
  if patches.isEmpty then
    false
  else
    bug_history.any (fun change_group =>
      change_group.changes.any (fun change =>
        change.field_name == "flagtypes.name" &&
          (splitOnComma change.added).contains "review+".data))

/-- The review system used for a commit; enum values are serialized for
telemetry. -/
inductive ReviewSystem where
  | phabricator
  | mozreview
  | bmo
  | unknown
  | not_applicable
  deriving DecidableEq

/-- The serialized string value of a `ReviewSystem` member. -/
def ReviewSystem.value : ReviewSystem → String
  | .phabricator => "phabricator"
  | .mozreview => "mozreview"
  | .bmo => "bmo"
  | .unknown => "unknown"
  | .not_applicable => "not_applicable"

/-- The external collaborators `determine_review_system` consults: the bug
number parser (`mozautomation.commitparser.parse_bugs`) and the BMO fetches
of attachments and history, keyed by bug id. -/
structure BmoEnv where
  parse_bugs : String → List Nat
  fetch_attachments : Nat → List Attachment
  fetch_bug_history : Nat → List ChangeGroup

/-- `determine_review_system(revision_json)`.  `parse_bugs(summary).pop()`
takes the last element of the parsed list and raises `IndexError` (caught,
yielding `unknown`) when the list is empty; this is `getLast?` here. -/
def determine_review_system (env : BmoEnv) (revision_json : RevisionJson) :
    ReviewSystem :=
  let summary := revision_json.desc
  if has_backout_markers summary || has_merge_markers revision_json then
    ReviewSystem.not_applicable
  else if has_phab_markers summary then
    ReviewSystem.phabricator
  else
    match (env.parse_bugs summary).getLast? with
    | none => ReviewSystem.unknown
    | some bug_id =>
      let attachments := env.fetch_attachments bug_id
      let bug_history := env.fetch_bug_history bug_id
      if has_mozreview_markers attachments then
        ReviewSystem.mozreview
      else if has_bmo_patch_review_markers attachments bug_history then
        ReviewSystem.bmo
      else
        ReviewSystem.unknown

/-- An hg `json-rev` HTTP response: status code and, on success, the revision
JSON body. -/
structure HttpResponse where
  status_code : Nat
  body : RevisionJson
  deriving DecidableEq

/-- Errors raised by `payload_for_changeset`: `NoSuchChangeset` on 404, or
the generic `requests` HTTPError from `raise_for_status` (4xx/5xx). -/
inductive TelemetryError where
  | NoSuchChangeset (message : String)
  | HTTPError (status_code : Nat)
  deriving DecidableEq

/-- The telemetry ping payload. -/
structure Payload where
  changesetID : String
  reviewSystemUsed : String
  deriving DecidableEq

/-- `payload_for_changeset(changesetid, repo_url)`, with the HTTP GET of
`{repo_url}/json-rev/{changesetid}` modelled as a function argument. -/
def payload_for_changeset (env : BmoEnv)
    (http_get : String → String → HttpResponse)
    (changesetid repo_url : String) : Except TelemetryError Payload :=
  let response := http_get repo_url changesetid
  if response.status_code == 404 then
    Except.error (TelemetryError.NoSuchChangeset
      ("The changeset " ++ changesetid ++ " does not exist in repository " ++
        repo_url))
  else if 400 ≤ response.status_code ∧ response.status_code < 600 then
    Except.error (TelemetryError.HTTPError response.status_code)
  else
    Except.ok
      { changesetID := changesetid,
        reviewSystemUsed := (determine_review_system env response.body).value }

/-- Dynamic-typing view of `has_mozreview_markers` for a possibly absent
(null) attachments value: iterating over `None` in the source language is a
runtime type error, while a present list is processed normally. -/
def has_mozreview_markers_of_option :
    Option (List Attachment) → Except String Bool
  | none => Except.error "TypeError: NoneType object is not iterable"
  | some attachments => Except.ok (has_mozreview_markers attachments)

/-- A trivial environment: no bugs parsed, no attachments, no history. -/
def env0 : BmoEnv where
  parse_bugs := fun _ => []
  fetch_attachments := fun _ => []
  fetch_bug_history := fun _ => []

/-- C1: any commit metadata record with more than one parent identifier is
classified `not_applicable`, regardless of the summary text and of the
external environment. -/
theorem merge_commits_not_applicable (env : BmoEnv) (r : RevisionJson)
    (h : 1 < r.parents.length) :
    determine_review_system env r = ReviewSystem.not_applicable := by
  simp [determine_review_system, has_merge_markers, h]

/-- C1 witness: a two-parent commit whose summary even carries a Phabricator
marker is still `not_applicable`. -/
theorem merge_commits_not_applicable_witness :
    1 < (RevisionJson.mk "Differential Revision: https://x/D861"
      ["a", "b"]).parents.length ∧
    determine_review_system env0
      (RevisionJson.mk "Differential Revision: https://x/D861" ["a", "b"]) =
        ReviewSystem.not_applicable :=
  ⟨by decide, merge_commits_not_applicable env0 _ (by decide)⟩

/-- C2: a single-parent commit whose summary matches the backout pattern is
classified `not_applicable`, whatever else the summary contains. -/
theorem backout_commits_not_applicable (env : BmoEnv) (r : RevisionJson)
    (_hp : r.parents.length = 1) (hb : has_backout_markers r.desc = true) :
    determine_review_system env r = ReviewSystem.not_applicable := by
  simp [determine_review_system, hb]

/-- C2 witness: a single-parent backout whose summary also carries a
well-formed Phabricator marker is still `not_applicable`. -/
theorem backout_commits_not_applicable_witness :
    (RevisionJson.mk
      "Backed out 2 changesets Differential Revision: https://x/D861"
      ["a"]).parents.length = 1 ∧
    has_phab_markers
      "Backed out 2 changesets Differential Revision: https://x/D861" = true ∧
    determine_review_system env0
      (RevisionJson.mk
        "Backed out 2 changesets Differential Revision: https://x/D861"
        ["a"]) = ReviewSystem.not_applicable :=
  ⟨rfl, by decide,
    backout_commits_not_applicable env0 _ rfl (by decide)⟩

/-- C3 counterexample: a summary in which the backout phrase is preceded only
by a single leading space is NOT matched — the pattern is anchored at the
very first character, so the claim that leading whitespace is tolerated
fails. -/
theorem backout_marker_leading_space_counterexample :
    has_backout_markers " backed out bug 1" = false := by decide

/-- C3 (amended): `has_backout_markers` is true exactly when the summary
begins, at position 0, with the case-insensitive phrase `backed out `; in
particular any leading whitespace defeats the match, and the phrase occurring
strictly later in the text does not produce a match. -/
theorem backout_marker_iff_starts_with (s : String) :
    has_backout_markers s = true ↔
      ∃ p t : List Char, s.data = p ++ t ∧
        p.map Char.toLower = "backed out ".data := by
  unfold has_backout_markers BACKOUT_PATTERN
  rw [beq_iff_eq]
  constructor
  · intro h
    refine ⟨s.data.take ("backed out ".data.length),
      s.data.drop ("backed out ".data.length),
      (List.take_append_drop _ _).symm, ?_⟩
    rw [List.map_take, h]
  · rintro ⟨p, t, hst, hp⟩
    have hlen : ("backed out ".data).length = (p.map Char.toLower).length := by
      rw [hp]
    rw [hst, List.map_append, hlen, List.take_left, hp]

/-- C3 witness: an all-caps summary starting with the phrase is matched. -/
theorem backout_marker_iff_starts_with_witness :
    has_backout_markers "BACKED OUT changeset abc" = true :=
  (backout_marker_iff_starts_with "BACKED OUT changeset abc").mpr
    ⟨"BACKED OUT ".data, "changeset abc".data, by decide, by decide⟩

/-- C4: a single-parent commit with no backout match whose summary carries a
well-formed Phabricator marker is classified `phabricator`. -/
theorem phab_marker_yields_phabricator (env : BmoEnv) (r : RevisionJson)
    (hp : r.parents.length = 1) (hb : has_backout_markers r.desc = false)
    (hph : has_phab_markers r.desc = true) :
    determine_review_system env r = ReviewSystem.phabricator := by
  simp [determine_review_system, has_merge_markers, hb, hph, hp]

/-- C4 witness: the spec's example summary
`Differential Revision: https://x/D861` on a single-parent commit yields
`phabricator`. -/
theorem phab_marker_yields_phabricator_witness :
    (RevisionJson.mk "Differential Revision: https://x/D861"
      ["p1"]).parents.length = 1 ∧
    has_backout_markers "Differential Revision: https://x/D861" = false ∧
    has_phab_markers "Differential Revision: https://x/D861" = true ∧
    determine_review_system env0
      (RevisionJson.mk "Differential Revision: https://x/D861" ["p1"]) =
        ReviewSystem.phabricator :=
  ⟨rfl, by decide, by decide,
    phab_marker_yields_phabricator env0 _ rfl (by decide) (by decide)⟩

/-- C5: a single-parent, non-backout, non-Phabricator-marked commit whose
summary parses to no bug number is classified `unknown`; the result holds for
every environment, so no attachment or history lookup can influence it. -/
theorem no_bug_reference_yields_unknown (env : BmoEnv) (r : RevisionJson)
    (hp : r.parents.length = 1) (hb : has_backout_markers r.desc = false)
    (hph : has_phab_markers r.desc = false)
    (hbugs : env.parse_bugs r.desc = []) :
    determine_review_system env r = ReviewSystem.unknown := by
  simp [determine_review_system, has_merge_markers, hb, hph, hp, hbugs]

/-- C5 witness: a plain summary with no markers and no parsed bug number. -/
theorem no_bug_reference_yields_unknown_witness :
    has_backout_markers "fix a thing" = false ∧
    has_phab_markers "fix a thing" = false ∧
    env0.parse_bugs "fix a thing" = [] ∧
    determine_review_system env0 (RevisionJson.mk "fix a thing" ["p1"]) =
      ReviewSystem.unknown :=
  ⟨by decide, by decide, rfl,
    no_bug_reference_yields_unknown env0 _ rfl (by decide) (by decide) rfl⟩

/-- Environment for the C6 witness: one bug, one MozReview patch attachment,
an empty history. -/
def envC6 : BmoEnv where
  parse_bugs := fun _ => [42]
  fetch_attachments := fun _ => [Attachment.mk 1 ATTACHMENT_TYPE_MOZREVIEW]
  fetch_bug_history := fun _ => []

/-- C6: a single-parent, non-backout, non-Phabricator-marked commit that
resolves to a bug whose attachments include one with the MozReview content
type and `is_patch = 1` is classified `mozreview`, whatever the bug history
holds. -/
theorem mozreview_attachment_yields_mozreview (env : BmoEnv)
    (r : RevisionJson) (bug_id : Nat) (a : Attachment)
    (hp : r.parents.length = 1) (hb : has_backout_markers r.desc = false)
    (hph : has_phab_markers r.desc = false)
    (hbug : (env.parse_bugs r.desc).getLast? = some bug_id)
    (ha : a ∈ env.fetch_attachments bug_id)
    (hpatch : a.is_patch = 1)
    (hct : a.content_type = ATTACHMENT_TYPE_MOZREVIEW) :
    determine_review_system env r = ReviewSystem.mozreview := by
  have hmoz : has_mozreview_markers (env.fetch_attachments bug_id) = true := by
    unfold has_mozreview_markers
    rw [List.any_eq_true]
    exact ⟨a, List.mem_filter.mpr ⟨ha, by simp [is_patch, hpatch]⟩,
      by simp [hct]⟩
  simp [determine_review_system, has_merge_markers, hb, hph, hp, hbug, hmoz]

/-- C6 witness: a MozReview patch attachment with an empty bug history (so no
review-approval flag exists) still classifies as `mozreview`. -/
theorem mozreview_attachment_yields_mozreview_witness :
    envC6.fetch_bug_history 42 = [] ∧
    determine_review_system envC6 (RevisionJson.mk "fix bug 42" ["p1"]) =
      ReviewSystem.mozreview :=
  ⟨rfl,
    mozreview_attachment_yields_mozreview envC6 _ 42
      (Attachment.mk 1 ATTACHMENT_TYPE_MOZREVIEW) rfl (by decide) (by decide)
      rfl (by simp [envC6]) rfl rfl⟩

/-- C7 (amended): `has_bmo_patch_review_markers` is true exactly when some
attachment has the raw `is_patch` flag equal to 1 (content type ignored) and
some history change on the `flagtypes.name` field has `review+` among its
comma-split added values; with zero strict-patch attachments it is false even
if history holds approval events, and the classification is then `unknown`
provided no earlier rule (merge, backout, Phabricator marker, MozReview
attachment marker) already fired. -/
theorem bmo_patch_review_markers_characterization :
    (∀ (attachments : List Attachment) (bug_history : List ChangeGroup),
      has_bmo_patch_review_markers attachments bug_history = true ↔
        ((∃ a ∈ attachments, a.is_patch = 1) ∧
          ∃ g ∈ bug_history, ∃ ch ∈ g.changes,
            ch.field_name = "flagtypes.name" ∧
              "review+".data ∈ splitOnComma ch.added)) ∧
    (∀ (env : BmoEnv) (r : RevisionJson) (bug_id : Nat),
      r.parents.length = 1 → has_backout_markers r.desc = false →
      has_phab_markers r.desc = false →
      (env.parse_bugs r.desc).getLast? = some bug_id →
      has_mozreview_markers (env.fetch_attachments bug_id) = false →
      (∀ a ∈ env.fetch_attachments bug_id, ¬a.is_patch = 1) →
      determine_review_system env r = ReviewSystem.unknown) := by
  have hchar : ∀ (attachments : List Attachment)
      (bug_history : List ChangeGroup),
      has_bmo_patch_review_markers attachments bug_history = true ↔
        ((∃ a ∈ attachments, a.is_patch = 1) ∧
          ∃ g ∈ bug_history, ∃ ch ∈ g.changes,
            ch.field_name = "flagtypes.name" ∧
              "review+".data ∈ splitOnComma ch.added) := by
    intro attachments bug_history
    unfold has_bmo_patch_review_markers
    by_cases hnil : attachments.filter (fun a => a.is_patch == 1) = []
    · have hno : ¬∃ a ∈ attachments, a.is_patch = 1 := by
        rintro ⟨a, ha, hap⟩
        have := List.filter_eq_nil_iff.mp hnil a ha
        simp [hap] at this
      simp [hnil, hno]
    · have hne : (attachments.filter (fun a => a.is_patch == 1)).isEmpty
          = false := by
        simp [List.isEmpty_iff, hnil]
      obtain ⟨x, hx⟩ := List.exists_mem_of_ne_nil _ hnil
      obtain ⟨hxmem, hxp⟩ := List.mem_filter.mp hx
      have hyes : ∃ a ∈ attachments, a.is_patch = 1 :=
        ⟨x, hxmem, by simpa using hxp⟩
      simp [hne, hyes, List.any_eq_true, List.contains, List.elem_iff]
  refine ⟨hchar, ?_⟩
  intro env r bug_id hp hb hph hbug hmoz hnopatch
  have hbmo : has_bmo_patch_review_markers (env.fetch_attachments bug_id)
      (env.fetch_bug_history bug_id) = false := by
    cases h : has_bmo_patch_review_markers (env.fetch_attachments bug_id)
        (env.fetch_bug_history bug_id) with
    | false => rfl
    | true =>
      obtain ⟨⟨a, ha, hap⟩, -⟩ := (hchar _ _).mp h
      exact absurd hap (hnopatch a ha)
  simp [determine_review_system, has_merge_markers, hb, hph, hp, hbug, hmoz,
    hbmo]

/-- C7 witness: a strict patch plus a `review-,review+` flag change makes the
marker true, and with no attachments at all the classifier lands on
`unknown`. -/
theorem bmo_patch_review_markers_characterization_witness :
    has_bmo_patch_review_markers [Attachment.mk 1 "text/plain"]
      [ChangeGroup.mk [Change.mk "flagtypes.name" "review-,review+"]] =
        true ∧
    determine_review_system
      (BmoEnv.mk (fun _ => [7]) (fun _ => [])
        (fun _ => [ChangeGroup.mk [Change.mk "flagtypes.name" "review+"]]))
      (RevisionJson.mk "fix a leak" ["p1"]) = ReviewSystem.unknown :=
  ⟨(bmo_patch_review_markers_characterization.1 _ _).mpr (by decide),
    bmo_patch_review_markers_characterization.2
      (BmoEnv.mk (fun _ => [7]) (fun _ => [])
        (fun _ => [ChangeGroup.mk [Change.mk "flagtypes.name" "review+"]]))
      (RevisionJson.mk "fix a leak" ["p1"]) 7 rfl (by decide) (by decide)
      rfl rfl (by simp)⟩

/-- Environment for the C7 counterexample: the resolved bug has a single
non-patch attachment carrying the MozReview content type, and a history event
that added the `review+` flag. -/
def envC7 : BmoEnv where
  parse_bugs := fun _ => [1]
  fetch_attachments := fun _ => [Attachment.mk 0 ATTACHMENT_TYPE_MOZREVIEW]
  fetch_bug_history := fun _ =>
    [ChangeGroup.mk [Change.mk "flagtypes.name" "review+"]]

/-- C7 counterexample: a resolved bug with zero strict-patch attachments and
an approval-flag history event is classified `mozreview`, not `unknown` — the
MozReview content type alone passes the patch filter of the earlier rule. -/
theorem zero_patch_unknown_counterexample :
    (envC7.fetch_attachments 1).filter (fun a => a.is_patch == 1) = [] ∧
    (envC7.fetch_bug_history 1).any (fun change_group =>
      change_group.changes.any (fun change =>
        change.field_name == "flagtypes.name" &&
          (splitOnComma change.added).contains "review+".data)) = true ∧
    determine_review_system envC7 (RevisionJson.mk "fix bug 1" ["p1"]) =
      ReviewSystem.mozreview ∧
    determine_review_system envC7 (RevisionJson.mk "fix bug 1" ["p1"]) ≠
      ReviewSystem.unknown := by
  refine ⟨rfl, by decide, by decide, by decide⟩

/-- C8: `payload_for_changeset` turns a 404 response into the
`NoSuchChangeset` error (so no record is produced), and turns a successful
(200) response into exactly the record of the changeset id and the
classification's serialized value. -/
theorem payload_result_characterization (env : BmoEnv)
    (http_get : String → String → HttpResponse)
    (changesetid repo_url : String) :
    ((http_get repo_url changesetid).status_code = 404 →
      payload_for_changeset env http_get changesetid repo_url =
        Except.error (TelemetryError.NoSuchChangeset
          ("The changeset " ++ changesetid ++
            " does not exist in repository " ++ repo_url))) ∧
    ((http_get repo_url changesetid).status_code = 200 →
      payload_for_changeset env http_get changesetid repo_url =
        Except.ok
          { changesetID := changesetid,
            reviewSystemUsed :=
              (determine_review_system env
                (http_get repo_url changesetid).body).value }) := by
  constructor
  · intro h
    simp [payload_for_changeset, h]
  · intro h
    simp [payload_for_changeset, h]

/-- C8 witness: a data source answering 404 yields the `NoSuchChangeset`
error; one answering 200 with a merge commit yields the record with the
`not_applicable` token. -/
theorem payload_result_characterization_witness :
    payload_for_changeset env0
      (fun _ _ => HttpResponse.mk 404 (RevisionJson.mk "" []))
      "deafa2891c61" "https://hg.example" =
      Except.error (TelemetryError.NoSuchChangeset
        ("The changeset " ++ "deafa2891c61" ++
          " does not exist in repository " ++ "https://hg.example")) ∧
    payload_for_changeset env0
      (fun _ _ => HttpResponse.mk 200 (RevisionJson.mk "merge" ["a", "b"]))
      "deafa2891c61" "https://hg.example" =
      Except.ok
        { changesetID := "deafa2891c61",
          reviewSystemUsed :=
            (determine_review_system env0
              (RevisionJson.mk "merge" ["a", "b"])).value } :=
  ⟨(payload_result_characterization env0
      (fun _ _ => HttpResponse.mk 404 (RevisionJson.mk "" []))
      "deafa2891c61" "https://hg.example").1 rfl,
    (payload_result_characterization env0
      (fun _ _ => HttpResponse.mk 200 (RevisionJson.mk "merge" ["a", "b"]))
      "deafa2891c61" "https://hg.example").2 rfl⟩

/-- C9 counterexample: applied to an absent (null) attachments value, the
scan raises a type error rather than returning false. -/
theorem absent_attachments_counterexample :
    has_mozreview_markers_of_option none =
      Except.error "TypeError: NoneType object is not iterable" := rfl

/-- C9 (amended): an empty attachment list yields false without an error,
both directly and through the optional-value view; an absent (null)
attachments value is a runtime type error, not false. -/
theorem empty_attachments_yield_false :
    has_mozreview_markers [] = false ∧
    has_mozreview_markers_of_option (some []) = Except.ok false ∧
    ∃ e, has_mozreview_markers_of_option none = Except.error e :=
  ⟨rfl, rfl, "TypeError: NoneType object is not iterable", rfl⟩

/-- C10: every classification is one of the five enumeration members — there
is no distinct GitHub classification — although the GitHub content type does
make an attachment count as a patch attachment in the patch filter. -/
theorem review_system_closed_enumeration :
    (∀ (env : BmoEnv) (r : RevisionJson),
      determine_review_system env r = ReviewSystem.phabricator ∨
      determine_review_system env r = ReviewSystem.mozreview ∨
      determine_review_system env r = ReviewSystem.bmo ∨
      determine_review_system env r = ReviewSystem.unknown ∨
      determine_review_system env r = ReviewSystem.not_applicable) ∧
    is_patch (Attachment.mk 0 ATTACHMENT_TYPE_GITHUB) = true := by
  constructor
  · intro env r
    cases h : determine_review_system env r <;> simp
  · rfl

end CommitTelemetry
